import Mathlib

/-!
Shallow embedding of the instance-lifecycle logic of
`big-red-ctfd/instancer/app.py` (class `ChallengeInstancer` and its
routes), together with theorems settling the specification claims.

The registry is the MySQL table `instancer_instances`; we model it as a
list of rows.  Status values are the literal strings the code stores and
queries (`'creating'`, `'running'`, `'deleted'`; the schema default is
`'creating'`).  External effects (the Azure client, the random hex
suffix, subprocess/database failures) become explicit inputs, so each
run of an operation is a pure function of the registry state and those
inputs.
-/

namespace Instancer

/-- One row of the `instancer_instances` table (see `init_db`,
app.py lines 123-137).  `expires_at` is seconds since an arbitrary
epoch; the auto-increment `id` plays no role in any claim and is
omitted. -/
structure Row where
  user_id : Nat
  challenge_id : String
  container_name : String
  fqdn : String
  status : String
  expires_at : Nat
deriving DecidableEq

/-- A challenge catalog entry (app.py `CHALLENGES`); only the fields a
claim could touch. -/
structure Challenge where
  name : String
  port : Nat
deriving DecidableEq

/-- The static challenge catalog (app.py lines 62-77). -/
def CHALLENGES : List (String × Challenge) :=
  [("eaas", ⟨"EaaS", 1337⟩), ("vuln-app", ⟨"Vulnerable Web App", 1337⟩)]

/-- `challenge_id in CHALLENGES` — dict key membership. -/
def challengeKnown (cid : String) : Bool :=
  CHALLENGES.any (fun p => p.1 == cid)

/-- `CONTAINER_LIMITS['max_global_instances']` (app.py line 81). -/
def max_global_instances : Nat := 50

/-- `CONTAINER_LIMITS['warning_threshold']` (app.py line 82). -/
def warning_threshold : Nat := 45

/-- The status set `('creating', 'running')` used by every "active"
query in app.py. -/
def isActiveStatus (s : String) : Bool :=
  s == "creating" || s == "running"

/-- The predicate of the `user_has_active_instance` query: row matches
the user, the challenge, and has an active status (app.py lines
377-383). -/
def activeForPair (uid : Nat) (cid : String) (r : Row) : Bool :=
  r.user_id == uid && r.challenge_id == cid && isActiveStatus r.status

/-- The value of `SELECT COUNT(*) ... WHERE status IN
('creating','running')` on registry state `db` (app.py lines 407-411). -/
def countActive (db : List Row) : Nat :=
  (db.filter (fun r => isActiveStatus r.status)).length

/-- `get_global_instance_count` (app.py lines 402-429): the active-row
count, except that any exception from the query is swallowed and `0` is
returned; `queryOk` is whether the query succeeded. -/
def get_global_instance_count (db : List Row) (queryOk : Bool) : Nat :=
  if queryOk then countActive db else 0

/-- `user_has_active_instance` (app.py lines 372-400): whether an
active row exists for `(uid, cid)`, except that any exception from the
query is swallowed and `False` is returned. -/
def user_has_active_instance (db : List Row) (uid : Nat) (cid : String)
    (queryOk : Bool) : Bool :=
  if queryOk then db.any (activeForPair uid cid) else false

/-- The container name built at app.py line 236:
`f"cornell-{challenge_id}-{user_uuid}-{hex_suffix}"`.  The suffix is
`secrets.token_hex(8)` (16 hex characters), modelled as an input. -/
def mkContainerName (challenge_id user_uuid hex_suffix : String) : String :=
  "cornell-" ++ challenge_id ++ "-" ++ user_uuid ++ "-" ++ hex_suffix

/-- The URL stored as `fqdn` (app.py lines 266-267).  The Azure
location comes from the environment (`AZURE_LOCATION`); no claim
depends on it, so a representative value is fixed here. -/
def mkChallengeUrl (container_name : String) : String :=
  "http://" ++ container_name ++ ".eastus.azurecontainer.io:1337"

/-- `store_instance` (app.py lines 351-370): INSERT a row with status
`'running'`.  The table declares `container_name ... UNIQUE`
(`init_db`, line 128), so an insert with a duplicate name fails; the
`except` clause swallows that failure, leaving the registry unchanged
while the caller still proceeds. -/
def store_instance (db : List Row) (uid : Nat)
    (cid container_name fqdn : String) (expires_at : Nat) : List Row :=
  if db.any (fun r => r.container_name == container_name) then db
  else db ++ [⟨uid, cid, container_name, fqdn, "running", expires_at⟩]

/-- The inputs of one `create_challenge_instance` call: the request
fields, the random draws, the wall clock, and the success/failure of
each external effect (Azure client availability, the two registry
queries, the Azure provision call). -/
structure Req where
  user_id : Nat
  user_uuid : String
  challenge_id : String
  hex_suffix : String
  now : Nat
  hasClient : Bool
  countQueryOk : Bool
  dupQueryOk : Bool
  provisionOk : Bool
deriving DecidableEq

/-- The outcomes `create_challenge_instance` can return. -/
inductive CreateResult where
  | invalidChallenge
  | azureUnavailable
  | capacityLimit (current maxAllowed : Nat)
  | duplicateActive
  | createError
  | success (container_name : String) (expires_at : Nat)
deriving DecidableEq

/-- `create_challenge_instance` (app.py lines 210-298), returning the
result and the new registry state.  Order of checks follows the source:
catalog membership, Azure client, global capacity
(`current >= max_global_instances` rejects), per-(user, challenge)
duplicate, then the Azure provision call; an exception there is caught
and reported without touching the registry, otherwise `store_instance`
runs and the call reports success.  `expires_at = now + 15 minutes`
(line 272). -/
def create_challenge_instance (req : Req) (db : List Row) :
    CreateResult × List Row :=
  if challengeKnown req.challenge_id then
    if req.hasClient then
      let current := get_global_instance_count db req.countQueryOk
      if max_global_instances ≤ current then
        (.capacityLimit current max_global_instances, db)
      else if user_has_active_instance db req.user_id req.challenge_id
          req.dupQueryOk then
        (.duplicateActive, db)
      else
        let name := mkContainerName req.challenge_id req.user_uuid
          req.hex_suffix
        if req.provisionOk then
          let expires := req.now + 15 * 60
          (.success name expires,
           store_instance db req.user_id req.challenge_id name
             (mkChallengeUrl name) expires)
        else (.createError, db)
    else (.azureUnavailable, db)
  else (.invalidChallenge, db)

/-- A sequence of create calls folded over the registry. -/
def runCreates (reqs : List Req) (db : List Row) : List Row :=
  match reqs with
  | [] => db
  | r :: rest => runCreates rest (create_challenge_instance r db).2

/-- The UPDATE of `delete_instance` (app.py lines 731-735): set status
`'deleted'` on rows matching both the user and the container name. -/
def markDeletedUser (db : List Row) (uid : Nat) (name : String) :
    List Row :=
  db.map (fun r =>
    if r.user_id == uid && r.container_name == name then
      { r with status := "deleted" }
    else r)

/-- `delete_instance` (app.py lines 711-749).  The Azure
`begin_delete` call is attempted when the client exists and any
exception from it is caught and only logged (`azureOk` therefore never
influences the outcome); the database UPDATE runs with `check=True`, so
its failure (`dbOk = false`) propagates to the outer handler, which
returns `False` with the registry untouched.  Otherwise the function
returns `True`. -/
def delete_instance (db : List Row) (uid : Nat) (name : String)
    (hasClient azureOk dbOk : Bool) : Bool × List Row :=
  if dbOk then (true, markDeletedUser db uid name) else (false, db)

/-- The UPDATE of the reaper (app.py lines 795-799): set status
`'deleted'` on every row with the container name — no user or status
filter. -/
def markDeletedByName (db : List Row) (name : String) : List Row :=
  db.map (fun r =>
    if r.container_name == name then { r with status := "deleted" }
    else r)

/-- The expiry predicate of the reaper's SELECT (app.py lines 759-764):
active status and `expires_at <= NOW()`. -/
def isExpired (now : Nat) (r : Row) : Bool :=
  isActiveStatus r.status && decide (r.expires_at ≤ now)

/-- The per-row loop of `cleanup_expired_instances` (app.py lines
776-807).  For each expired row: the Azure `begin_delete` is attempted
whenever the client exists (its own failure is caught and logged, so
`deprovOk` never influences the state); then the database UPDATE runs
with `check=True`, so a failing UPDATE (`markOk name = false`) raises
out of the loop to the outer handler, abandoning the remaining rows.
Returns the registry state and the list of container names on which
deprovision was invoked. -/
def cleanupLoop (expired : List Row) (hasClient : Bool)
    (deprovOk markOk : String → Bool) (db : List Row)
    (deprovisioned : List String) : List Row × List String :=
  match expired with
  | [] => (db, deprovisioned)
  | r :: rest =>
      let deprovisioned :=
        if hasClient then deprovisioned ++ [r.container_name]
        else deprovisioned
      if markOk r.container_name then
        cleanupLoop rest hasClient deprovOk markOk
          (markDeletedByName db r.container_name) deprovisioned
      else (db, deprovisioned)

/-- `cleanup_expired_instances` (app.py lines 751-815): one reaper
cycle.  The expired set is the snapshot taken by the initial SELECT;
then each row is processed by `cleanupLoop`. -/
def cleanup_expired_instances (db : List Row) (now : Nat)
    (hasClient : Bool) (deprovOk markOk : String → Bool) :
    List Row × List String :=
  cleanupLoop (db.filter (isExpired now)) hasClient deprovOk markOk db []

/-- The active-row count restricted to one `(user, challenge)` pair —
the quantity the per-pair uniqueness invariant bounds. -/
def pairCount (db : List Row) (uid : Nat) (cid : String) : Nat :=
  (db.filter (activeForPair uid cid)).length

/-- Every row of `db` that matches `name` carries status `'deleted'`. -/
def deletedForName (name : String) (db : List Row) : Prop :=
  ∀ r ∈ db, r.container_name = name → r.status = "deleted"

/-! Concrete inputs used by witnesses and counterexamples. -/

/-- A fully successful create request from user 1 for `eaas`. -/
def reqA : Req :=
  ⟨1, "aaaaaaaa", "eaas", "0000000000000000", 0, true, true, true, true⟩

/-- A request from user 2 that happens to draw the same uuid and the
same random hex suffix as `reqA`. -/
def reqB : Req :=
  ⟨2, "aaaaaaaa", "eaas", "0000000000000000", 0, true, true, true, true⟩

/-- `reqA` with the Azure provision call throwing. -/
def reqAFail : Req :=
  ⟨1, "aaaaaaaa", "eaas", "0000000000000000", 0, true, true, true, false⟩

/-- An expired running row named `"a"`. -/
def rowA : Row := ⟨1, "eaas", "a", "u", "running", 100⟩

/-- A second expired running row named `"b"`. -/
def rowB : Row := ⟨2, "eaas", "b", "u", "running", 100⟩

/-- A registry-UPDATE oracle that fails exactly on container `"a"`. -/
def mBad : String → Bool := fun s => !(s == "a")

/-! Counterexamples to the claims that fail on the code. -/

/-- Claim C3, counterexample: a successful create inserts its row with
status `'running'` — never `'creating'` — and a create whose Azure
provision call throws inserts no row at all, so no row is ever marked
`'failed'`. -/
theorem creating_status_counterexample :
    (create_challenge_instance reqA []).1 =
      .success "cornell-eaas-aaaaaaaa-0000000000000000" 900 ∧
    (create_challenge_instance reqA []).2.map Row.status = ["running"] ∧
    ("running" : String) ≠ "creating" ∧
    create_challenge_instance reqAFail [] = (.createError, []) := by
  refine ⟨by decide, by decide, by decide, by decide⟩

/-- Claim C4, counterexample: two distinct create calls (users 1 and 2)
that draw the same uuid and random hex suffix both report success with
the *same* container name; the second row insert is silently dropped by
the UNIQUE constraint, leaving the registry unchanged. -/
theorem name_collision_counterexample :
    reqA ≠ reqB ∧
    (create_challenge_instance reqA []).1 =
      .success "cornell-eaas-aaaaaaaa-0000000000000000" 900 ∧
    (create_challenge_instance reqB (create_challenge_instance reqA []).2).1 =
      .success "cornell-eaas-aaaaaaaa-0000000000000000" 900 ∧
    (create_challenge_instance reqB (create_challenge_instance reqA []).2).2 =
      (create_challenge_instance reqA []).2 := by
  refine ⟨by decide, by decide, by decide, by decide⟩

/-- Claim C6, counterexample: with two expired instances `"a"` and
`"b"`, a registry-update exception on `"a"` aborts the whole cycle —
`"b"` is neither deprovisioned nor marked deleted, though it is expired
at cycle start. -/
theorem reaper_abort_counterexample :
    isExpired 200 rowB = true ∧
    cleanup_expired_instances [rowA, rowB] 200 true (fun _ => true) mBad =
      ([rowA, rowB], ["a"]) ∧
    rowB.status = "running" := by
  refine ⟨by decide, by decide, by decide⟩

/-- Claim C8, counterexample: a user-initiated delete whose Azure
deprovision call throws (`azureOk = false`) still returns success
(`true`) to the caller, with the row marked deleted — the gateway
failure is swallowed, not surfaced. -/
theorem delete_swallows_gateway_error_counterexample :
    delete_instance [⟨1, "eaas", "n", "u", "running", 100⟩] 1 "n"
        true false true =
      (true, [⟨1, "eaas", "n", "u", "deleted", 100⟩]) := by decide

/-- Claim C9, counterexample: deleting a container name that exists
nowhere in the registry returns success (`true`), not a NotFound error;
indeed the implementation has no NotFound outcome at all. -/
theorem delete_nonexistent_counterexample :
    delete_instance [] 1 "nosuch" true true true = (true, []) := by decide

/-! Helper lemmas about the admission path. -/

theorem countActive_append (a b : List Row) :
    countActive (a ++ b) = countActive a + countActive b := by
  simp [countActive, List.filter_append]

theorem countActive_store_le (db : List Row) (uid : Nat)
    (cid n f : String) (e : Nat) :
    countActive (store_instance db uid cid n f e) ≤ countActive db + 1 := by
  unfold store_instance
  split
  · omega
  · rw [countActive_append]
    have h1 : countActive [⟨uid, cid, n, f, "running", e⟩] = 1 := rfl
    omega

/-- Shape of one create call: either the registry is untouched, or the
call passed the capacity and duplicate gates and appended via
`store_instance`. -/
theorem create_post_cases (req : Req) (db : List Row) :
    (create_challenge_instance req db).2 = db ∨
    (get_global_instance_count db req.countQueryOk < max_global_instances ∧
     user_has_active_instance db req.user_id req.challenge_id
       req.dupQueryOk = false ∧
     (create_challenge_instance req db).2 =
       store_instance db req.user_id req.challenge_id
         (mkContainerName req.challenge_id req.user_uuid req.hex_suffix)
         (mkChallengeUrl
           (mkContainerName req.challenge_id req.user_uuid req.hex_suffix))
         (req.now + 15 * 60)) := by
  by_cases h1 : challengeKnown req.challenge_id = true
  · by_cases h2 : req.hasClient = true
    · by_cases h3 : max_global_instances ≤
          get_global_instance_count db req.countQueryOk
      · left; simp [create_challenge_instance, h1, h2, h3]
      · by_cases h4 : user_has_active_instance db req.user_id
            req.challenge_id req.dupQueryOk = true
        · left; simp [create_challenge_instance, h1, h2, h3, h4]
        · by_cases h5 : req.provisionOk = true
          · right
            refine ⟨Nat.lt_of_not_le h3, by simpa using h4, ?_⟩
            simp [create_challenge_instance, h1, h2, h3, h4, h5]
          · left; simp [create_challenge_instance, h1, h2, h3, h4, h5]
    · left; simp [create_challenge_instance, h1, h2]
  · left; simp [create_challenge_instance, h1]

theorem countActive_create_le (req : Req) (db : List Row)
    (hq : req.countQueryOk = true)
    (h : countActive db ≤ max_global_instances) :
    countActive (create_challenge_instance req db).2 ≤
      max_global_instances := by
  rcases create_post_cases req db with hc | ⟨hcap, _, heq⟩
  · rw [hc]; exact h
  · rw [heq]
    have h1 := countActive_store_le db req.user_id req.challenge_id
      (mkContainerName req.challenge_id req.user_uuid req.hex_suffix)
      (mkChallengeUrl
        (mkContainerName req.challenge_id req.user_uuid req.hex_suffix))
      (req.now + 15 * 60)
    rw [get_global_instance_count, hq, if_pos rfl] at hcap
    omega

theorem runCreates_countActive (reqs : List Req) (db : List Row)
    (hq : ∀ r ∈ reqs, r.countQueryOk = true)
    (h : countActive db ≤ max_global_instances) :
    countActive (runCreates reqs db) ≤ max_global_instances := by
  induction reqs generalizing db with
  | nil => exact h
  | cons r rest ih =>
      exact ih _ (fun x hx => hq x (List.mem_cons_of_mem _ hx))
        (countActive_create_le r db (hq r (List.mem_cons_self _ _)) h)

theorem create_at_capacity (req : Req) (db : List Row)
    (hq : req.countQueryOk = true)
    (h1 : challengeKnown req.challenge_id = true)
    (h2 : req.hasClient = true)
    (hcap : max_global_instances ≤ countActive db) :
    create_challenge_instance req db =
      (.capacityLimit (countActive db) max_global_instances, db) := by
  simp [create_challenge_instance, h1, h2, get_global_instance_count,
    hq, hcap]

/-- Claim C1: under sequential execution with working registry count
queries, the number of rows with status in `('creating','running')`
never exceeds `max_global_instances`; and a create call (for a known
challenge, with the Azure client available) arriving when the active
count is already at the cap is rejected with the capacity error and
leaves the registry unchanged. -/
theorem capacity_invariant :
    (∀ (reqs : List Req) (db : List Row),
        (∀ r ∈ reqs, r.countQueryOk = true) →
        countActive db ≤ max_global_instances →
        countActive (runCreates reqs db) ≤ max_global_instances) ∧
    (∀ (req : Req) (db : List Row), req.countQueryOk = true →
        challengeKnown req.challenge_id = true → req.hasClient = true →
        max_global_instances ≤ countActive db →
        create_challenge_instance req db =
          (.capacityLimit (countActive db) max_global_instances, db)) :=
  ⟨runCreates_countActive, create_at_capacity⟩

/-- A registry standing at exactly the 50-instance cap. -/
def dbCap : List Row :=
  List.replicate 50 ⟨1, "eaas", "x", "u", "running", 900⟩

/-- Witness for `capacity_invariant` at concrete inputs: one create on
an empty registry keeps the count within the cap, and a create against
a registry holding 50 active rows is rejected unchanged. -/
theorem capacity_invariant_witness :
    countActive (runCreates [reqA] []) ≤ max_global_instances ∧
    create_challenge_instance reqA dbCap =
      (.capacityLimit (countActive dbCap) max_global_instances, dbCap) :=
  ⟨capacity_invariant.1 [reqA] [] (by decide) (by decide),
   capacity_invariant.2 reqA dbCap rfl (by decide) rfl (by decide)⟩

/-! Helper lemmas about per-pair uniqueness. -/

theorem pairCount_append (a b : List Row) (uid : Nat) (cid : String) :
    pairCount (a ++ b) uid cid = pairCount a uid cid + pairCount b uid cid := by
  simp [pairCount, List.filter_append]

theorem pairCount_eq_zero_of_not_active (db : List Row) (uid : Nat)
    (cid : String) (h : db.any (activeForPair uid cid) = false) :
    pairCount db uid cid = 0 := by
  unfold pairCount
  rw [List.length_eq_zero, List.filter_eq_nil_iff]
  exact List.any_eq_false.mp h

theorem pairCount_singleton_le (r : Row) (uid : Nat) (cid : String) :
    pairCount [r] uid cid ≤ 1 := by
  unfold pairCount
  cases hf : activeForPair uid cid r <;> simp [List.filter, hf]

theorem pairCount_create_le (req : Req) (db : List Row)
    (hd : req.dupQueryOk = true)
    (h : ∀ uid cid, pairCount db uid cid ≤ 1) (uid : Nat) (cid : String) :
    pairCount (create_challenge_instance req db).2 uid cid ≤ 1 := by
  rcases create_post_cases req db with hc | ⟨_, hdup, heq⟩
  · rw [hc]; exact h uid cid
  · rw [heq]
    unfold store_instance
    split
    · exact h uid cid
    · rw [pairCount_append]
      have hany : db.any (activeForPair req.user_id req.challenge_id)
          = false := by
        rw [user_has_active_instance, hd, if_pos rfl] at hdup
        exact hdup
      by_cases hrow : activeForPair uid cid
          ⟨req.user_id, req.challenge_id,
           mkContainerName req.challenge_id req.user_uuid req.hex_suffix,
           mkChallengeUrl
             (mkContainerName req.challenge_id req.user_uuid req.hex_suffix),
           "running", req.now + 15 * 60⟩ = true
      · have hpair : req.user_id = uid ∧ req.challenge_id = cid := by
          have := hrow
          simp only [activeForPair, Bool.and_eq_true, beq_iff_eq] at this
          exact ⟨this.1.1, this.1.2⟩
        have h0 : pairCount db uid cid = 0 := by
          rw [← hpair.1, ← hpair.2]
          exact pairCount_eq_zero_of_not_active db _ _ hany
        have h1 := pairCount_singleton_le
          ⟨req.user_id, req.challenge_id,
           mkContainerName req.challenge_id req.user_uuid req.hex_suffix,
           mkChallengeUrl
             (mkContainerName req.challenge_id req.user_uuid req.hex_suffix),
           "running", req.now + 15 * 60⟩ uid cid
        omega
      · have h0 : pairCount
            [⟨req.user_id, req.challenge_id,
              mkContainerName req.challenge_id req.user_uuid req.hex_suffix,
              mkChallengeUrl
                (mkContainerName req.challenge_id req.user_uuid
                  req.hex_suffix),
              "running", req.now + 15 * 60⟩] uid cid = 0 := by
          unfold pairCount
          simp [List.filter, hrow]
        have h1 := h uid cid
        omega

theorem create_duplicate_rejected (req : Req) (db : List Row)
    (hd : req.dupQueryOk = true) (hq : req.countQueryOk = true)
    (h1 : challengeKnown req.challenge_id = true)
    (h2 : req.hasClient = true)
    (hcap : countActive db < max_global_instances)
    (hdup : user_has_active_instance db req.user_id req.challenge_id
      req.dupQueryOk = true) :
    create_challenge_instance req db = (.duplicateActive, db) := by
  have hnot : ¬ max_global_instances ≤
      get_global_instance_count db req.countQueryOk := by
    rw [get_global_instance_count, hq, if_pos rfl]
    omega
  simp [create_challenge_instance, h1, h2, hnot, hdup]

/-- Claim C2: under sequential execution with working duplicate-check
queries, at most one row with status in `('creating','running')` exists
per `(user_id, challenge_id)` pair; and a create call for a pair that
already has an active row (for a known challenge, with the Azure client
available and capacity remaining) is rejected with the duplicate error
and leaves the registry unchanged. -/
theorem per_pair_uniqueness :
    (∀ (reqs : List Req) (db : List Row),
        (∀ r ∈ reqs, r.dupQueryOk = true) →
        (∀ uid cid, pairCount db uid cid ≤ 1) →
        ∀ uid cid, pairCount (runCreates reqs db) uid cid ≤ 1) ∧
    (∀ (req : Req) (db : List Row), req.dupQueryOk = true →
        req.countQueryOk = true →
        challengeKnown req.challenge_id = true → req.hasClient = true →
        countActive db < max_global_instances →
        user_has_active_instance db req.user_id req.challenge_id
          req.dupQueryOk = true →
        create_challenge_instance req db = (.duplicateActive, db)) := by
  constructor
  · intro reqs
    induction reqs with
    | nil => intro db _ h uid cid; exact h uid cid
    | cons r rest ih =>
        intro db hq h uid cid
        exact ih _ (fun x hx => hq x (List.mem_cons_of_mem _ hx))
          (pairCount_create_le r db (hq r (List.mem_cons_self _ _)) h)
          uid cid
  · exact create_duplicate_rejected

/-- A registry in which user 1 already has an active `eaas` instance. -/
def dbDup : List Row := [⟨1, "eaas", "n", "u", "running", 900⟩]

/-- Witness for `per_pair_uniqueness` at concrete inputs: two
same-suffix creates from an empty registry keep every pair count at
most one, and user 1 creating a second `eaas` instance is rejected as
a duplicate. -/
theorem per_pair_uniqueness_witness :
    (∀ uid cid, pairCount (runCreates [reqA, reqB] []) uid cid ≤ 1) ∧
    create_challenge_instance reqA dbDup = (.duplicateActive, dbDup) :=
  ⟨per_pair_uniqueness.1 [reqA, reqB] [] (by decide)
      (fun _ _ => by simp [pairCount]),
   per_pair_uniqueness.2 reqA dbDup rfl rfl (by decide) rfl (by decide)
     (by decide)⟩

/-! The lifecycle actually implemented at creation time. -/

theorem mem_store_instance (db : List Row) (uid : Nat)
    (cid n f : String) (e : Nat) (r : Row)
    (h : r ∈ store_instance db uid cid n f e) :
    r ∈ db ∨ r.status = "running" := by
  unfold store_instance at h
  split at h
  · exact Or.inl h
  · rcases List.mem_append.mp h with h' | h'
    · exact Or.inl h'
    · right
      rw [List.mem_singleton.mp h']

/-- Claim C3 (amended): every row a create call adds to the registry is
inserted directly with status `'running'`; and a create whose Azure
provision call throws (while passing the catalog, client, capacity and
duplicate gates) returns the creation error with the registry
untouched, so a failed provisioning leaves no row behind and counts for
nothing. -/
theorem rows_inserted_running :
    (∀ (req : Req) (db : List Row) (r : Row),
        r ∈ (create_challenge_instance req db).2 →
        r ∈ db ∨ r.status = "running") ∧
    (∀ (req : Req) (db : List Row), req.provisionOk = false →
        challengeKnown req.challenge_id = true → req.hasClient = true →
        get_global_instance_count db req.countQueryOk <
          max_global_instances →
        user_has_active_instance db req.user_id req.challenge_id
          req.dupQueryOk = false →
        create_challenge_instance req db = (.createError, db)) := by
  constructor
  · intro req db r hr
    rcases create_post_cases req db with hc | ⟨_, _, heq⟩
    · rw [hc] at hr; exact Or.inl hr
    · rw [heq] at hr
      exact mem_store_instance _ _ _ _ _ _ _ hr
  · intro req db hp h1 h2 hcap hdup
    have hnot : ¬ max_global_instances ≤
        get_global_instance_count db req.countQueryOk := by omega
    simp [create_challenge_instance, h1, h2, hnot, hdup, hp]

/-- Witness for `rows_inserted_running` at concrete inputs: the single
row produced by `reqA` on an empty registry is new and running, and the
failing request `reqAFail` leaves the registry empty with the creation
error. -/
theorem rows_inserted_running_witness :
    (⟨1, "eaas", "cornell-eaas-aaaaaaaa-0000000000000000",
       mkChallengeUrl "cornell-eaas-aaaaaaaa-0000000000000000",
       "running", 900⟩ ∈ ([] : List Row) ∨
     ("running" : String) = "running") ∧
    create_challenge_instance reqAFail [] = (.createError, []) :=
  ⟨rows_inserted_running.1 reqA [] _ (by decide),
   rows_inserted_running.2 reqAFail [] rfl (by decide) rfl (by decide)
     (by decide)⟩

/-! Container-name uniqueness, as far as the code provides it. -/

theorem string_append_data (s t : String) :
    (s ++ t).data = s.data ++ t.data :=
  String.data_append s t

/-- Claim C4 (amended): container names are injective in the random
hex suffix — two create calls that draw distinct suffixes of equal
length (the code always draws 16 hex characters) produce distinct
container names, whatever the challenge and user uuid; uniqueness with
*equal* suffixes fails, as `name_collision_counterexample` shows. -/
theorem distinct_suffix_distinct_name (c1 u1 s1 c2 u2 s2 : String)
    (hl : s1.length = s2.length) (hne : s1 ≠ s2) :
    mkContainerName c1 u1 s1 ≠ mkContainerName c2 u2 s2 := by
  intro h
  apply hne
  unfold mkContainerName at h
  have hd : ("cornell-" ++ c1 ++ "-" ++ u1 ++ "-").data ++ s1.data =
      ("cornell-" ++ c2 ++ "-" ++ u2 ++ "-").data ++ s2.data := by
    have h2 := congrArg String.data h
    simpa [string_append_data] using h2
  have hlen : s1.data.length = s2.data.length := hl
  have hdata : s1.data = s2.data := List.append_inj_right' hd hlen
  cases s1
  cases s2
  exact congrArg String.mk hdata

/-- Witness for `distinct_suffix_distinct_name` at concrete inputs:
equal-length distinct suffixes give distinct names even for the same
challenge and uuid. -/
theorem distinct_suffix_distinct_name_witness :
    mkContainerName "eaas" "aaaaaaaa" "0000000000000000" ≠
      mkContainerName "eaas" "aaaaaaaa" "0000000000000001" :=
  distinct_suffix_distinct_name "eaas" "aaaaaaaa" "0000000000000000"
    "eaas" "aaaaaaaa" "0000000000000001" (by decide) (by decide)

/-! Helper lemmas about the reaper cycle. -/

theorem deletedForName_markDeletedByName_self (db : List Row)
    (name : String) : deletedForName name (markDeletedByName db name) := by
  intro r2 h2 hn
  unfold markDeletedByName at h2
  obtain ⟨r, hr, heq⟩ := List.mem_map.mp h2
  by_cases hc : (r.container_name == name) = true
  · rw [if_pos hc] at heq
    rw [← heq]
  · rw [if_neg hc] at heq
    rw [← heq] at hn
    exact absurd (beq_iff_eq.mpr hn) hc

theorem deletedForName_markDeletedByName_mono (db : List Row)
    (name other : String) (h : deletedForName name db) :
    deletedForName name (markDeletedByName db other) := by
  intro r2 h2 hn
  unfold markDeletedByName at h2
  obtain ⟨r, hr, heq⟩ := List.mem_map.mp h2
  by_cases hc : (r.container_name == other) = true
  · rw [if_pos hc] at heq
    rw [← heq]
  · rw [if_neg hc] at heq
    rw [← heq]
    rw [← heq] at hn
    exact h r hr hn

theorem deletedForName_foldl_mono (l : List Row) (db : List Row)
    (name : String) (h : deletedForName name db) :
    deletedForName name
      (l.foldl (fun d x => markDeletedByName d x.container_name) db) := by
  induction l generalizing db with
  | nil => exact h
  | cons x rest ih =>
      exact ih _ (deletedForName_markDeletedByName_mono _ _ _ h)

theorem deletedForName_foldl_of_mem (l : List Row) (db : List Row)
    (r : Row) (hr : r ∈ l) :
    deletedForName r.container_name
      (l.foldl (fun d x => markDeletedByName d x.container_name) db) := by
  induction l generalizing db with
  | nil => cases hr
  | cons x rest ih =>
      rcases List.mem_cons.mp hr with heq | hmem
      · subst heq
        exact deletedForName_foldl_mono rest _ _
          (deletedForName_markDeletedByName_self db _)
      · exact ih _ hmem

/-- With every registry UPDATE succeeding, one cycle folds the mark
over the whole expired snapshot and deprovisions each snapshot row
(when the client exists) — whatever the deprovision outcomes. -/
theorem cleanupLoop_allOk (expired : List Row) (hc : Bool)
    (dOk mOk : String → Bool) (db : List Row) (acc : List String)
    (hm : ∀ s, mOk s = true) :
    cleanupLoop expired hc dOk mOk db acc =
      (expired.foldl (fun d x => markDeletedByName d x.container_name) db,
       acc ++
         (if hc then expired.map (fun x => x.container_name) else [])) := by
  induction expired generalizing db acc with
  | nil => cases hc <;> simp [cleanupLoop]
  | cons r rest ih =>
      simp only [cleanupLoop, hm r.container_name, if_true]
      rw [ih]
      cases hc <;> simp

/-- Claim C5: in a reaper cycle with the Azure client available and a
functioning registry, every instance that is active and past its
`expires_at` when the cycle starts has deprovision invoked on its
container name and ends the cycle with every row of that name marked
`'deleted'` — regardless of the per-name deprovision outcomes
`deprovOk`. -/
theorem reaper_reclaims_expired (db : List Row) (now : Nat)
    (deprovOk markOk : String → Bool) (hm : ∀ s, markOk s = true)
    (r : Row) (hr : r ∈ db) (hexp : isExpired now r = true) :
    r.container_name ∈
      (cleanup_expired_instances db now true deprovOk markOk).2 ∧
    deletedForName r.container_name
      (cleanup_expired_instances db now true deprovOk markOk).1 := by
  unfold cleanup_expired_instances
  rw [cleanupLoop_allOk _ _ _ _ _ _ hm]
  constructor
  · simp only [if_pos rfl, List.nil_append]
    exact List.mem_map_of_mem _ (List.mem_filter.mpr ⟨hr, hexp⟩)
  · exact deletedForName_foldl_of_mem _ db r
      (List.mem_filter.mpr ⟨hr, hexp⟩)

/-- Witness for `reaper_reclaims_expired` at concrete inputs: the
expired row `rowA` is deprovisioned and marked deleted in one cycle
even though its deprovision call fails. -/
theorem reaper_reclaims_expired_witness :
    rowA.container_name ∈
      (cleanup_expired_instances [rowA] 200 true (fun _ => false)
        (fun _ => true)).2 ∧
    deletedForName rowA.container_name
      (cleanup_expired_instances [rowA] 200 true (fun _ => false)
        (fun _ => true)).1 :=
  reaper_reclaims_expired [rowA] 200 (fun _ => false) (fun _ => true)
    (fun _ => rfl) rowA (by decide) (by decide)

theorem cleanupLoop_deprov_irrel (expired : List Row) (hc : Bool)
    (d1 d2 mOk : String → Bool) (db : List Row) (acc : List String) :
    cleanupLoop expired hc d1 mOk db acc =
      cleanupLoop expired hc d2 mOk db acc := by
  induction expired generalizing db acc with
  | nil => rfl
  | cons r rest ih =>
      simp only [cleanupLoop]
      split
      · exact ih _ _
      · rfl

/-- Claim C6 (amended): within one reaper cycle, a failing Azure
deprovision call never affects the cycle's outcome (the per-instance
exception is swallowed), but a failing registry UPDATE aborts the
cycle: the loop stops at the failing instance, leaving it and all
later expired instances untouched until a later cycle. -/
theorem reaper_fault_isolation :
    (∀ (db : List Row) (now : Nat) (hc : Bool) (d1 d2 mOk : String → Bool),
        cleanup_expired_instances db now hc d1 mOk =
          cleanup_expired_instances db now hc d2 mOk) ∧
    (∀ (r : Row) (rest : List Row) (hc : Bool) (dOk mOk : String → Bool)
        (db : List Row) (acc : List String),
        mOk r.container_name = false →
        cleanupLoop (r :: rest) hc dOk mOk db acc =
          (db, acc ++ (if hc then [r.container_name] else []))) := by
  constructor
  · intro db now hc d1 d2 mOk
    exact cleanupLoop_deprov_irrel _ _ _ _ _ _ _
  · intro r rest hc dOk mOk db acc hm
    simp only [cleanupLoop, hm]
    cases hc <;> simp

/-- Witness for `reaper_fault_isolation` at concrete inputs: a cycle's
outcome is the same under all-failing and all-succeeding deprovision,
and a registry-UPDATE failure on `rowA` returns the registry unchanged
with only `rowA` deprovisioned. -/
theorem reaper_fault_isolation_witness :
    cleanup_expired_instances [rowA, rowB] 200 true (fun _ => false)
        (fun _ => true) =
      cleanup_expired_instances [rowA, rowB] 200 true (fun _ => true)
        (fun _ => true) ∧
    cleanupLoop [rowA, rowB] true (fun _ => true) mBad [rowA, rowB] [] =
      ([rowA, rowB], [] ++ (if true then [rowA.container_name] else [])) :=
  ⟨reaper_fault_isolation.1 [rowA, rowB] 200 true (fun _ => false)
      (fun _ => true) (fun _ => true),
   reaper_fault_isolation.2 rowA [rowB] true (fun _ => true) mBad
     [rowA, rowB] [] (by decide)⟩

/-! Helper lemmas about the delete path. -/

theorem markDeletedUser_eq_self (db : List Row) (uid : Nat)
    (name : String)
    (h : ∀ r ∈ db, r.user_id = uid → r.container_name = name →
      r.status = "deleted") :
    markDeletedUser db uid name = db := by
  unfold markDeletedUser
  conv_rhs => rw [← List.map_id db]
  apply List.map_congr_left
  intro r hr
  by_cases hc : (r.user_id == uid && r.container_name == name) = true
  · rw [if_pos hc]
    rw [Bool.and_eq_true, beq_iff_eq, beq_iff_eq] at hc
    have hst := h r hr hc.1 hc.2
    obtain ⟨a, b, c, d, e, f⟩ := r
    simp only [id]
    simp only at hst
    rw [hst]
  · rw [if_neg hc]
    rfl

/-- Claim C7: deleting an instance whose matching rows are all already
`'deleted'` (with the database reachable) returns success and leaves
the registry exactly as it was — delete is idempotent, whatever the
Azure client state and deprovision outcome. -/
theorem delete_idempotent (db : List Row) (uid : Nat) (name : String)
    (hc aOk : Bool)
    (h : ∀ r ∈ db, r.user_id = uid → r.container_name = name →
      r.status = "deleted") :
    delete_instance db uid name hc aOk true = (true, db) := by
  unfold delete_instance
  rw [if_pos rfl, markDeletedUser_eq_self db uid name h]

/-- A registry whose only matching row is already deleted. -/
def dbDel : List Row := [⟨1, "eaas", "n", "u", "deleted", 100⟩]

/-- Witness for `delete_idempotent` at concrete inputs: re-deleting the
already-deleted row of `dbDel` returns success and the same registry. -/
theorem delete_idempotent_witness :
    delete_instance dbDel 1 "n" true true true = (true, dbDel) :=
  delete_idempotent dbDel 1 "n" true true (by decide)

/-- Claim C8 (amended): a user-initiated delete behaves exactly like
the reaper with respect to the gateway — the Azure deprovision outcome
never influences the returned value or the registry, the call reports
success whenever the database UPDATE goes through, and every matching
row ends up `'deleted'`. -/
theorem delete_ignores_gateway_outcome (db : List Row) (uid : Nat)
    (name : String) (hc a1 a2 dbOk : Bool) :
    delete_instance db uid name hc a1 dbOk =
      delete_instance db uid name hc a2 dbOk ∧
    (delete_instance db uid name hc a1 true).1 = true ∧
    (∀ r ∈ (delete_instance db uid name hc a1 true).2,
        r.user_id = uid → r.container_name = name →
        r.status = "deleted") := by
  refine ⟨rfl, rfl, ?_⟩
  intro r hr hu hn
  unfold delete_instance markDeletedUser at hr
  rw [if_pos rfl] at hr
  obtain ⟨x, hx, heq⟩ := List.mem_map.mp hr
  by_cases hcond : (x.user_id == uid && x.container_name == name) = true
  · rw [if_pos hcond] at heq
    rw [← heq]
  · rw [if_neg hcond] at heq
    rw [← heq] at hu hn
    refine absurd ?_ hcond
    rw [Bool.and_eq_true, beq_iff_eq, beq_iff_eq]
    exact ⟨hu, hn⟩

/-- Witness for `delete_ignores_gateway_outcome` at concrete inputs:
deleting the running row of `dbDup` with a failing gateway equals
doing so with a succeeding one, reports success, and leaves every
matching row deleted. -/
theorem delete_ignores_gateway_outcome_witness :
    delete_instance dbDup 1 "n" true false true =
      delete_instance dbDup 1 "n" true true true ∧
    (delete_instance dbDup 1 "n" true false true).1 = true ∧
    (∀ r ∈ (delete_instance dbDup 1 "n" true false true).2,
        r.user_id = 1 → r.container_name = "n" →
        r.status = "deleted") :=
  delete_ignores_gateway_outcome dbDup 1 "n" true false true true

/-- Claim C9 (amended): a delete naming an instance that does not exist
for the given owner returns success with the registry unchanged — an
idempotent no-op, with no NotFound error anywhere in the result. -/
theorem delete_nonexistent_succeeds (db : List Row) (uid : Nat)
    (name : String) (hc aOk : Bool)
    (h : ∀ r ∈ db, ¬ (r.user_id = uid ∧ r.container_name = name)) :
    delete_instance db uid name hc aOk true = (true, db) := by
  apply delete_idempotent
  intro r hr hu hn
  exact absurd ⟨hu, hn⟩ (h r hr)

/-- Witness for `delete_nonexistent_succeeds` at concrete inputs: user
1 deleting a name owned by nobody in a registry holding only user 2's
row gets success and an unchanged registry. -/
theorem delete_nonexistent_succeeds_witness :
    delete_instance [⟨2, "eaas", "other", "u", "running", 100⟩] 1 "n"
        true true true =
      (true, [⟨2, "eaas", "other", "u", "running", 100⟩]) :=
  delete_nonexistent_succeeds [⟨2, "eaas", "other", "u", "running", 100⟩]
    1 "n" true true (by decide)

/-! The fail-open behaviour of the admission queries. -/

/-- Claim C10: when the capacity-count query errors its result is taken
as `0` and when the duplicate-check query errors its result is taken as
`false`, so a create call (known challenge, client available, provision
succeeding) passes both gates and inserts a new instance whatever the
registry holds — including at or beyond capacity and with an active
duplicate present, as the witness shows. -/
theorem fail_open_create (req : Req) (db : List Row)
    (h1 : challengeKnown req.challenge_id = true)
    (h2 : req.hasClient = true) (hq1 : req.countQueryOk = false)
    (hq2 : req.dupQueryOk = false) (hp : req.provisionOk = true) :
    get_global_instance_count db req.countQueryOk = 0 ∧
    user_has_active_instance db req.user_id req.challenge_id
      req.dupQueryOk = false ∧
    create_challenge_instance req db =
      (.success
        (mkContainerName req.challenge_id req.user_uuid req.hex_suffix)
        (req.now + 15 * 60),
       store_instance db req.user_id req.challenge_id
         (mkContainerName req.challenge_id req.user_uuid req.hex_suffix)
         (mkChallengeUrl
           (mkContainerName req.challenge_id req.user_uuid req.hex_suffix))
         (req.now + 15 * 60)) := by
  have hcnt : get_global_instance_count db req.countQueryOk = 0 := by
    rw [get_global_instance_count, hq1]
    simp
  have hdup : user_has_active_instance db req.user_id req.challenge_id
      req.dupQueryOk = false := by
    rw [user_has_active_instance, hq2]
    simp
  refine ⟨hcnt, hdup, ?_⟩
  have hnot : ¬ max_global_instances ≤
      get_global_instance_count db req.countQueryOk := by
    rw [hcnt]
    simp [max_global_instances]
  simp [create_challenge_instance, h1, h2, hnot, hdup, hp]

/-- A create request issued while both admission queries error. -/
def reqFailOpen : Req :=
  ⟨1, "bbbbbbbb", "eaas", "ffff0000ffff0000", 0, true, false, false, true⟩

/-- Witness for `fail_open_create` at concrete inputs: `dbCap` is at
the 50-instance cap and user 1 already holds an active `eaas` row in
it, yet the create with erroring queries succeeds and inserts. -/
theorem fail_open_create_witness :
    max_global_instances ≤ countActive dbCap ∧
    dbCap.any (activeForPair 1 "eaas") = true ∧
    (get_global_instance_count dbCap reqFailOpen.countQueryOk = 0 ∧
     user_has_active_instance dbCap reqFailOpen.user_id
       reqFailOpen.challenge_id reqFailOpen.dupQueryOk = false ∧
     create_challenge_instance reqFailOpen dbCap =
       (.success
         (mkContainerName reqFailOpen.challenge_id reqFailOpen.user_uuid
           reqFailOpen.hex_suffix)
         (reqFailOpen.now + 15 * 60),
        store_instance dbCap reqFailOpen.user_id reqFailOpen.challenge_id
          (mkContainerName reqFailOpen.challenge_id reqFailOpen.user_uuid
            reqFailOpen.hex_suffix)
          (mkChallengeUrl
            (mkContainerName reqFailOpen.challenge_id
              reqFailOpen.user_uuid reqFailOpen.hex_suffix))
          (reqFailOpen.now + 15 * 60))) :=
  ⟨by decide, by decide,
   fail_open_create reqFailOpen dbCap (by decide) rfl rfl rfl rfl⟩

end Instancer
